import Mathlib

/-!
Verification of the YKK emergency-response poll application
(`ykk_emergency_response.py`) against its design specification.

Strings are modelled as lists of characters (`Str`); the helper `str`
injects Lean string literals.  Python regular expressions are modelled by
small executable matcher combinators; the SQLite tables are modelled as
association lists; Python `datetime` values are modelled as
year/month/day plus hour/minute records (the application always composes
times with seconds = 0, and both endpoints are localized in the same
timezone, so comparison of the localized datetimes coincides with
field-lexicographic comparison of the naive components).
-/

namespace Survey

abbrev Str := List Char

def str (s : String) : Str := s.data

/-! ### `clean_phone` and `normalize_for_comparison` (source lines 52-63) -/

/-- Characters removed from both ends by Python `str.strip()`. -/
def isPySpace (c : Char) : Bool :=
  c == ' ' || c == '\t' || c == '\n' || c == '\r' || c == '\x0b' || c == '\x0c'

def pyStrip (cs : Str) : Str :=
  ((cs.dropWhile isPySpace).reverse.dropWhile isPySpace).reverse

/-- Source `clean_phone`: `str(phone).strip().replace(" ","").replace("-","").replace("(","").replace(")","")`. -/
def clean_phone (cs : Str) : Str :=
  (pyStrip cs).filter (fun c => !(c == ' ' || c == '-' || c == '(' || c == ')'))

/-- Source `normalize_for_comparison` (the spec's `normalize_for_match`). -/
def normalize_for_comparison (cs : Str) : Str :=
  let phone := clean_phone cs
  if phone.take 3 = str "+92" then phone.drop 3
  else if phone.take 2 = str "92" ∧ 10 < phone.length then phone.drop 2
  else if phone.take 1 = str "0" then phone.drop 1
  else phone

/-! ### Regex matchers for `validate_phone` (source lines 43-50)

The two patterns are `^(\+92|92|0)?3[0-9]{9}$` (strict) and
`^\+?[0-9]{7,15}$` (flexible).  They are modelled by matcher combinators
continuation-style: a matcher consumes characters from the front of the
list and hands the rest to the continuation.  The `$` anchor of Python
`re` (no MULTILINE flag) succeeds at the end of the string and also just
before a newline that ends the string; `dollar` models exactly that. -/

def isAsciiDigit (c : Char) : Bool := '0' ≤ c && c ≤ '9'

/-- Python's `$` anchor: end of string, or just before one final newline. -/
def dollar : Str → Bool
  | [] => true
  | [c] => c == '\n'
  | _ => false

/-- End-of-string test (what `$` would be without the newline allowance). -/
def atEnd : Str → Bool
  | [] => true
  | _ => false

/-- Match one literal character, then continue. -/
def charThen (c : Char) (k : Str → Bool) : Str → Bool
  | [] => false
  | x :: rest => x == c && k rest

/-- Match `[0-9]{n}`, then continue. -/
def digitsThen (k : Str → Bool) : Nat → Str → Bool
  | 0, cs => k cs
  | _ + 1, [] => false
  | n + 1, c :: rest => isAsciiDigit c && digitsThen k n rest

/-- Match `[0-9]{0,n}` (with backtracking), then continue. -/
def digitsUpTo (k : Str → Bool) : Nat → Str → Bool
  | 0, cs => k cs
  | n + 1, cs =>
    k cs ||
      match cs with
      | [] => false
      | c :: rest => isAsciiDigit c && digitsUpTo k n rest

/-- Match an optional literal character (with backtracking), then continue. -/
def optCharThen (c : Char) (k : Str → Bool) (cs : Str) : Bool :=
  charThen c k cs || k cs

/-- Matcher for `3[0-9]{9}` followed by the given end test. -/
def strictTail (endTest : Str → Bool) : Str → Bool :=
  charThen '3' (digitsThen endTest 9)

/-- Matcher for `(\+92|92|0)?3[0-9]{9}` followed by the given end test
(the four alternatives of the optional group, in regex order). -/
def strictAlt (endTest : Str → Bool) (cs : Str) : Bool :=
  charThen '+' (charThen '9' (charThen '2' (strictTail endTest))) cs ||
  charThen '9' (charThen '2' (strictTail endTest)) cs ||
  charThen '0' (strictTail endTest) cs ||
  strictTail endTest cs

/-- The strict pattern `^(\+92|92|0)?3[0-9]{9}$` with Python `$` semantics. -/
def strict_pattern (cs : Str) : Bool := strictAlt dollar cs

/-- The flexible pattern `^\+?[0-9]{7,15}$` with Python `$` semantics. -/
def flexible_pattern (cs : Str) : Bool :=
  optCharThen '+' (digitsThen (digitsUpTo dollar 8) 7) cs

/-- Source `validate_phone(phone, mode)`: `patterns.get(mode, patterns["flexible"])`. -/
def validate_phone (phone : Str) (mode : Str) : Bool :=
  if mode = str "strict" then strict_pattern phone
  else if mode = str "flexible" then flexible_pattern phone
  else flexible_pattern phone

/-! Spec-side shapes (for claims C4/C10): the claim's wording describes the
accepted strings without the trailing-newline allowance of Python's `$`. -/

/-- The shape claimed for STRICT mode: an optional `+92`/`92`/`0`, then `3`
and nine more digits, ending the string. -/
def strictShape (cs : Str) : Bool := strictAlt atEnd cs

/-- The shape claimed for FLEXIBLE mode: an optional `+`, then 7 to 15
digits, ending the string. -/
def flexShape (cs : Str) : Bool :=
  optCharThen '+' (digitsThen (digitsUpTo atEnd 8) 7) cs

/-! ### 12-hour / 24-hour conversions (source lines 72-90) -/

/-- Source `convert_12hr_to_24hr(hour_12, minute, period)`. -/
def convert_12hr_to_24hr (hour12 minute : Nat) (period : Str) : Nat × Nat :=
  if period = str "PM" ∧ hour12 ≠ 12 then (hour12 + 12, minute)
  else if period = str "AM" ∧ hour12 = 12 then (0, minute)
  else (hour12, minute)

/-- Source `convert_24hr_to_12hr(hour_24, minute)`. -/
def convert_24hr_to_12hr (hour24 minute : Nat) : Nat × Nat × Str :=
  if hour24 = 0 then (12, minute, str "AM")
  else if hour24 < 12 then (hour24, minute, str "AM")
  else if hour24 = 12 then (12, minute, str "PM")
  else (hour24 - 12, minute, str "PM")

/-! ### Dates, times and `strftime("%Y-%m-%d %H:%M:%S")` -/

/-- A calendar date (`datetime.date`). -/
structure Date where
  year : Nat
  month : Nat
  day : Nat
deriving DecidableEq

/-- A time of day at the granularity the app composes (`datetime.time(h, m)`,
seconds always 0). -/
abbrev TimeHM := Nat × Nat

/-- Decimal digits of a number. -/
def natDigits (n : Nat) : Str := Nat.toDigits 10 n

/-- Zero-pad to two places (`%m`, `%d`, `%H`, `%M`). -/
def pad2 (n : Nat) : Str := if n < 10 then '0' :: natDigits n else natDigits n

/-- Zero-pad to four places (`%Y`). -/
def pad4 (n : Nat) : Str :=
  if n < 10 then '0' :: '0' :: '0' :: natDigits n
  else if n < 100 then '0' :: '0' :: natDigits n
  else if n < 1000 then '0' :: natDigits n
  else natDigits n

/-- Formatting `dt.strftime("%Y-%m-%d %H:%M:%S")` for a composed datetime (seconds 0).
`strftime` of an aware datetime prints the naive local fields, which are the
combined date and time-of-day. -/
def fmtDT (d : Date) (t : TimeHM) : Str :=
  pad4 d.year ++ ['-'] ++ pad2 d.month ++ ['-'] ++ pad2 d.day ++ [' '] ++
    pad2 t.1 ++ [':'] ++ pad2 t.2 ++ [':'] ++ str "00"

/-- Comparison `new_end <= new_start` on composed datetimes: Python `datetime`
comparison is field-lexicographic on the naive components, and both sides
are localized in the same timezone, so this is the comparison the code
performs. -/
def dtLe (d1 : Date) (t1 : TimeHM) (d2 : Date) (t2 : TimeHM) : Bool :=
  if d1.year < d2.year then true else if d2.year < d1.year then false
  else if d1.month < d2.month then true else if d2.month < d1.month then false
  else if d1.day < d2.day then true else if d2.day < d1.day then false
  else if t1.1 < t2.1 then true else if t2.1 < t1.1 then false
  else decide (t1.2 ≤ t2.2)

/-! ### The settings table (source lines 217-243) -/

/-- The `settings(key PRIMARY KEY, value)` relation, as an association list. -/
abbrev SettingsStore := List (Str × Str)

/-- Source `set_setting`: `INSERT OR REPLACE INTO settings`. -/
def set_setting (st : SettingsStore) (k v : Str) : SettingsStore :=
  if st.any (fun e => e.1 == k) then
    st.map (fun e => if e.1 == k then (k, v) else e)
  else st ++ [(k, v)]

/-- Source `get_setting` with no default: `SELECT value FROM settings WHERE key=?`. -/
def get_setting (st : SettingsStore) (k : Str) : Option Str :=
  (st.find? (fun e => e.1 == k)).map (fun e => e.2)

/-- Source `get_setting(key, default)`. -/
def get_settingD (st : SettingsStore) (k dflt : Str) : Str :=
  (get_setting st k).getD dflt

/-! ### The admin settings draft (the `settings_*` session-state keys) -/

/-- The ephemeral settings draft: one field per `settings_*` session key
used by `save_settings_to_db` / `check_settings_changed`. -/
structure Draft where
  timezone : Str
  time_format : Str
  time_input : Str
  start_date : Date
  end_date : Date
  start_time_24 : TimeHM
  end_time_24 : TimeHM
  start_hour : Nat
  start_min : Nat
  start_period : Str
  end_hour : Nat
  end_min : Nat
  end_period : Str
  validation : Str
  col_phone : Str
deriving DecidableEq

/-- The composed start time of day: the 24-hour widget value in "24" input
mode, otherwise the 12-hour fields converted. -/
def draft_start_time (d : Draft) : TimeHM :=
  if d.time_input = str "24" then d.start_time_24
  else convert_12hr_to_24hr d.start_hour d.start_min d.start_period

/-- The composed end time of day. -/
def draft_end_time (d : Draft) : TimeHM :=
  if d.time_input = str "24" then d.end_time_24
  else convert_12hr_to_24hr d.end_hour d.end_min d.end_period

/-- Source `save_settings_to_db()` (source lines 108-151): validates
`new_end <= new_start` before writing anything; on success writes the six
settings keys in source order.  Returns the success flag and the
resulting settings table. -/
def save_settings_to_db (d : Draft) (st : SettingsStore) : Bool × SettingsStore :=
  let sTime := draft_start_time d
  let eTime := draft_end_time d
  if dtLe d.end_date eTime d.start_date sTime then (false, st)
  else
    let st1 := set_setting st (str "poll_start") (fmtDT d.start_date sTime)
    let st2 := set_setting st1 (str "poll_end") (fmtDT d.end_date eTime)
    let st3 := set_setting st2 (str "validation_mode") d.validation
    let st4 := set_setting st3 (str "timezone") d.timezone
    let st5 := set_setting st4 (str "time_format") d.time_format
    let st6 := set_setting st5 (str "col_phone") (pyStrip d.col_phone)
    (true, st6)

/-- The "Save All Settings" button handler (source lines 944-959): on
success all `settings_*` session keys are deleted (the draft is cleared);
on failure the error is shown and the draft is kept. -/
def save_all_settings (d : Draft) (st : SettingsStore) :
    Bool × SettingsStore × Option Draft :=
  match save_settings_to_db d st with
  | (true, st') => (true, st', none)
  | (false, st') => (false, st', some d)

/-- Source `check_settings_changed()` (source lines 153-205).  `none` models the
state where the `settings_*` keys are absent from the session. -/
def check_settings_changed (d? : Option Draft) (st : SettingsStore) : Bool :=
  match d? with
  | none => false
  | some d =>
    let savedStart := get_setting st (str "poll_start")
    let savedEnd := get_setting st (str "poll_end")
    let savedTz := get_settingD st (str "timezone") (str "Asia/Karachi")
    let savedTf := get_settingD st (str "time_format") (str "12")
    let savedVm := get_settingD st (str "validation_mode") (str "flexible")
    let savedCp := get_settingD st (str "col_phone") (str "Phone")
    if d.timezone ≠ savedTz ∨ d.time_format ≠ savedTf ∨
        d.validation ≠ savedVm ∨ pyStrip d.col_phone ≠ savedCp then true
    else
      decide (some (fmtDT d.start_date (draft_start_time d)) ≠ savedStart ∨
        some (fmtDT d.end_date (draft_end_time d)) ≠ savedEnd)

/-! ### Poll window evaluator (source lines 441-448)

`show_user_interface` branches `if now < POLL_START`, `elif now > POLL_END`,
else the poll is open.  Instants are modelled as integers (seconds). -/

inductive PollState where
  | NOT_STARTED
  | OPEN
  | CLOSED
deriving DecidableEq

/-- Evaluator `get_poll_state(now)` of the spec, as computed by the branch order of
`show_user_interface`. -/
def get_poll_state (now start endT : Int) : PollState :=
  if now < start then .NOT_STARTED
  else if endT < now then .CLOSED
  else .OPEN

/-! ### Response and employee stores (source lines 221-299) -/

/-- A row of `poll_results(phone, response, timestamp)`. -/
abbrev ResponseRow := Str × Str × Str

/-- The `poll_results` relation; the schema declares `PRIMARY KEY (phone)`. -/
abbrev PollResults := List ResponseRow

/-- The `employees(phone PRIMARY KEY, info)` relation. -/
abbrev Employees := List (Str × Str)

/-- Source `has_already_voted(phone)`: `SELECT phone FROM poll_results WHERE phone=?`. -/
def has_already_voted (store : PollResults) (phone : Str) : Bool :=
  store.any (fun r => r.1 == phone)

inductive DBError where
  | IntegrityError
deriving DecidableEq

/-- Source `save_vote(phone, response, timestamp)`: a plain `INSERT`; the
`PRIMARY KEY (phone)` constraint makes the insert fail atomically when a
row for the phone already exists, leaving the table unchanged. -/
def save_vote (store : PollResults) (phone response timestamp : Str) :
    Except DBError PollResults :=
  if store.any (fun r => r.1 == phone) then .error .IntegrityError
  else .ok (store ++ [(phone, response, timestamp)])

/-- Source `get_employee(phone)`: exact-match lookup first, then a scan of all
records comparing `normalize_for_comparison` of both sides. -/
def get_employee (emps : Employees) (phone : Str) : Option Str :=
  match emps.find? (fun e => e.1 == phone) with
  | some e => some e.2
  | none =>
    match emps.find?
        (fun e => normalize_for_comparison e.1 == normalize_for_comparison phone) with
    | some e => some e.2
    | none => none

/-! ### The submission flow (`submit_response` of the spec)

The login form cleans and validates the phone and resolves the employee
(source lines 355-368); `show_user_interface` then checks the poll window
and `has_already_voted` before calling `save_vote` with the logged-in
phone (source lines 441-466). -/

inductive SubmitError where
  | InvalidPhone
  | UnknownEmployee
  | PollNotOpen
  | AlreadyVoted
deriving DecidableEq

instance {ε α : Type} [DecidableEq ε] [DecidableEq α] : DecidableEq (Except ε α) := fun a b =>
  match a, b with
  | .ok x, .ok y =>
    if h : x = y then .isTrue (by rw [h]) else .isFalse (fun hc => h (by injection hc))
  | .error x, .error y =>
    if h : x = y then .isTrue (by rw [h]) else .isFalse (fun hc => h (by injection hc))
  | .ok _, .error _ => .isFalse (fun hc => by injection hc)
  | .error _, .ok _ => .isFalse (fun hc => by injection hc)

/-- The end-to-end submission flow for one interaction: on success the new
`poll_results` table is returned; every failure leaves the table as it was. -/
def submit_response (emps : Employees) (store : PollResults)
    (rawPhone choice timestamp mode : Str) (now start endT : Int) :
    Except SubmitError PollResults :=
  let phone := clean_phone rawPhone
  if validate_phone phone mode = false then .error .InvalidPhone
  else if get_employee emps phone = none then .error .UnknownEmployee
  else if get_poll_state now start endT ≠ .OPEN then .error .PollNotOpen
  else if has_already_voted store phone then .error .AlreadyVoted
  else
    match save_vote store phone choice timestamp with
    | .ok st' => .ok st'
    | .error _ => .error .AlreadyVoted

/-- Number of `poll_results` rows stored for a phone. -/
def countPhone (store : PollResults) (phone : Str) : Nat :=
  (store.filter (fun r => r.1 == phone)).length

/-! ### Roster upload (`replace_roster` of the spec, source lines 748-779)

The upload handler cleans every phone, splits the rows into invalid
(reported, not stored) and valid ones, then `DELETE FROM employees`
followed by `INSERT OR IGNORE` for each valid row in order. -/

/-- One upload row: the cleaned-or-raw phone cell plus the serialized
remaining attributes (`info_json`). -/
structure UploadRow where
  phone : Str
  info : Str
deriving DecidableEq

/-- Statement `INSERT OR IGNORE INTO employees (phone, info)`. -/
def insert_or_ignore (db : Employees) (phone info : Str) : Employees :=
  if db.any (fun e => e.1 == phone) then db else db ++ [(phone, info)]

/-- The whole upload: returns `(accepted_count, rejected rows, new table)`.
`prior` is the employees table before the upload; the handler deletes it
entirely before inserting, so the fold starts from the empty table. -/
def replace_roster (prior : Employees) (rows : List UploadRow) (mode : Str) :
    Nat × List UploadRow × Employees :=
  let cleaned := rows.map (fun r => UploadRow.mk (clean_phone r.phone) r.info)
  let invalid := cleaned.filter (fun r => !(validate_phone r.phone mode))
  let valid := cleaned.filter (fun r => validate_phone r.phone mode)
  let db := valid.foldl (fun db r => insert_or_ignore db r.phone r.info) ([] : Employees)
  (valid.length, invalid, db)

/-- Exact-match lookup in the employees table. -/
def lookup_employee (db : Employees) (phone : Str) : Option (Str × Str) :=
  db.find? (fun e => e.1 == phone)

/-! ### Auxiliary notions used to state and relate the claims -/

/-- Does the string end in a newline? -/
def lastNL : Str → Bool
  | [] => false
  | [c] => c == '\n'
  | _ :: c :: rest => lastNL (c :: rest)

/-- The string without its final character. -/
def dropLast1 : Str → Str
  | [] => []
  | [_] => []
  | c :: d :: rest => c :: dropLast1 (d :: rest)

/-- Two matchers related by the `$`-anchor newline allowance: the first
accepts a remainder exactly when the second accepts it as-is or accepts it
with one final newline removed. -/
def TrimSplit (eD eE : Str → Bool) : Prop :=
  ∀ cs, eD cs = (eE cs || (lastNL cs && eE (dropLast1 cs)))

/-- The normalization rule exactly as the claim words it: strip a leading
`+92`; or a leading `92` when the RESULTING length exceeds 10; or a single
leading `0`; otherwise unchanged.  (Stated on an already-canonical phone.) -/
def normalizeSpecClaim (p : Str) : Str :=
  if p.take 3 = str "+92" then p.drop 3
  else if p.take 2 = str "92" ∧ 10 < (p.drop 2).length then p.drop 2
  else if p.take 1 = str "0" then p.drop 1
  else p

/-- The amended normalization rule: strip a leading `92` when the phone's
own length exceeds 10 (the code's `len(phone) > 10`).  (Stated on an
already-canonical phone.) -/
def normalizeAmended (p : Str) : Str :=
  if p.take 3 = str "+92" then p.drop 3
  else if p.take 2 = str "92" ∧ 10 < p.length then p.drop 2
  else if p.take 1 = str "0" then p.drop 1
  else p

/-- The spec's description of the unsaved-changes test: some field among
timezone, time-display format, validation mode, phone column name, or the
composed start/end timestamp strings differs from the persisted value. -/
def settings_differ (d : Draft) (st : SettingsStore) : Prop :=
  d.timezone ≠ get_settingD st (str "timezone") (str "Asia/Karachi") ∨
  d.time_format ≠ get_settingD st (str "time_format") (str "12") ∨
  d.validation ≠ get_settingD st (str "validation_mode") (str "flexible") ∨
  pyStrip d.col_phone ≠ get_settingD st (str "col_phone") (str "Phone") ∨
  some (fmtDT d.start_date (draft_start_time d)) ≠ get_setting st (str "poll_start") ∨
  some (fmtDT d.end_date (draft_end_time d)) ≠ get_setting st (str "poll_end")

/-- A draft put into 24-hour input mode with the given start/end times
(the time-sync handler, source lines 858-874). -/
def draftWith24 (d : Draft) (h1 m1 h2 m2 : Nat) : Draft :=
  { d with time_input := str "24", start_time_24 := (h1, m1), end_time_24 := (h2, m2) }

/-- The same instants entered in 12-hour input mode: the hour, minute and
period fields hold the converted values (the time-sync handler, source
lines 875-889). -/
def draftWith12 (d : Draft) (h1 m1 h2 m2 : Nat) : Draft :=
  { d with
    time_input := str "12"
    start_hour := (convert_24hr_to_12hr h1 m1).1
    start_min := (convert_24hr_to_12hr h1 m1).2.1
    start_period := (convert_24hr_to_12hr h1 m1).2.2
    end_hour := (convert_24hr_to_12hr h2 m2).1
    end_min := (convert_24hr_to_12hr h2 m2).2.1
    end_period := (convert_24hr_to_12hr h2 m2).2.2 }

/-! ### Concrete sample data used by witness theorems -/

/-- A sample employees table with a single roster entry. -/
def sampleEmployees : Employees := [(str "03001234567", str "info")]

/-- A sample settings draft. -/
def sampleDraft : Draft where
  timezone := str "Asia/Karachi"
  time_format := str "12"
  time_input := str "24"
  start_date := ⟨2026, 1, 1⟩
  end_date := ⟨2026, 1, 31⟩
  start_time_24 := (9, 0)
  end_time_24 := (18, 0)
  start_hour := 9
  start_min := 0
  start_period := str "AM"
  end_hour := 6
  end_min := 0
  end_period := str "PM"
  validation := str "flexible"
  col_phone := str "Phone"

/-- A draft whose composed end equals its composed start. -/
def sampleDraftEqualRange : Draft :=
  { sampleDraft with end_date := sampleDraft.start_date, end_time_24 := sampleDraft.start_time_24 }

/-! ## Helper lemmas -/

theorem am_ne_pm : str "AM" ≠ str "PM" := by decide

theorem hr12_ne_24 : str "12" ≠ str "24" := by decide

theorem flexible_ne_strict : str "flexible" ≠ str "strict" := by decide

/-- 24-hour to 12-hour and back is the identity on valid 24-hour times. -/
theorem conv_24_12_24 (h m : Nat) (hh : h < 24) :
    convert_12hr_to_24hr (convert_24hr_to_12hr h m).1 (convert_24hr_to_12hr h m).2.1
      (convert_24hr_to_12hr h m).2.2 = (h, m) := by
  by_cases h0 : h = 0
  · subst h0
    simp [convert_24hr_to_12hr, convert_12hr_to_24hr, am_ne_pm]
  by_cases hlt : h < 12
  · simp only [convert_24hr_to_12hr]
    rw [if_neg h0, if_pos hlt]
    simp only [convert_12hr_to_24hr]
    rw [if_neg (fun hc => am_ne_pm hc.1), if_neg (fun hc => absurd hc.2 (by omega))]
  by_cases h12 : h = 12
  · subst h12
    simp [convert_24hr_to_12hr, convert_12hr_to_24hr, am_ne_pm, am_ne_pm.symm]
  · simp only [convert_24hr_to_12hr]
    rw [if_neg h0, if_neg hlt, if_neg h12]
    simp only [convert_12hr_to_24hr]
    rw [if_pos ⟨trivial, fun hc => by omega⟩]
    simp only [Prod.mk.injEq]
    exact ⟨by omega, trivial⟩

/-- 12-hour to 24-hour and back is the identity on valid 12-hour times. -/
theorem conv_12_24_12 (h12 m : Nat) (p : Str) (hlo : 1 ≤ h12) (hhi : h12 ≤ 12)
    (hp : p = str "AM" ∨ p = str "PM") :
    convert_24hr_to_12hr (convert_12hr_to_24hr h12 m p).1 (convert_12hr_to_24hr h12 m p).2 =
      (h12, m, p) := by
  rcases hp with hp | hp <;> subst hp
  · by_cases h : h12 = 12
    · subst h
      simp [convert_12hr_to_24hr, convert_24hr_to_12hr, am_ne_pm]
    · simp only [convert_12hr_to_24hr]
      rw [if_neg (fun hc => am_ne_pm hc.1), if_neg (fun hc => h hc.2)]
      simp only [convert_24hr_to_12hr]
      rw [if_neg (by omega), if_pos (by omega)]
  · by_cases h : h12 = 12
    · subst h
      simp [convert_12hr_to_24hr, convert_24hr_to_12hr, am_ne_pm, am_ne_pm.symm]
    · simp only [convert_12hr_to_24hr]
      rw [if_pos ⟨trivial, h⟩]
      simp only [convert_24hr_to_12hr]
      rw [if_neg (by omega), if_neg (by omega), if_neg (by omega)]
      simp only [Prod.mk.injEq]
      exact ⟨by omega, trivial⟩

/-! ## Claim theorems -/

/-- Claim C9: the 12-hour and 24-hour conversions are mutually inverse on
their valid ranges, with the standard 12 AM / 12 PM rules. -/
theorem time_conversion_round_trip :
    (∀ h m : Nat, h < 24 → m < 60 →
      convert_12hr_to_24hr (convert_24hr_to_12hr h m).1 (convert_24hr_to_12hr h m).2.1
        (convert_24hr_to_12hr h m).2.2 = (h, m)) ∧
    (∀ h12 m : Nat, ∀ p : Str, 1 ≤ h12 → h12 ≤ 12 → m < 60 →
      (p = str "AM" ∨ p = str "PM") →
      convert_24hr_to_12hr (convert_12hr_to_24hr h12 m p).1 (convert_12hr_to_24hr h12 m p).2 =
        (h12, m, p)) ∧
    convert_12hr_to_24hr 12 0 (str "AM") = (0, 0) ∧
    convert_12hr_to_24hr 12 0 (str "PM") = (12, 0) := by
  refine ⟨fun h m hh _ => conv_24_12_24 h m hh,
    fun h12 m p hlo hhi _ hp => conv_12_24_12 h12 m p hlo hhi hp, by decide, by decide⟩

/-- Claim C9 witness at hour 13, minute 45 and at 12:05 AM. -/
theorem time_conversion_round_trip_witness :
    ((13 : Nat) < 24 ∧ (45 : Nat) < 60) ∧
    convert_12hr_to_24hr (convert_24hr_to_12hr 13 45).1 (convert_24hr_to_12hr 13 45).2.1
      (convert_24hr_to_12hr 13 45).2.2 = (13, 45) ∧
    convert_24hr_to_12hr (convert_12hr_to_24hr 12 5 (str "AM")).1
      (convert_12hr_to_24hr 12 5 (str "AM")).2 = (12, 5, str "AM") :=
  ⟨by decide, time_conversion_round_trip.1 13 45 (by decide) (by decide),
    time_conversion_round_trip.2.1 12 5 (str "AM") (by decide) (by decide) (by decide)
      (Or.inl rfl)⟩

/-- Claim C10: `validate_phone` with a mode that is neither `strict` nor
`flexible` silently falls back to the flexible pattern and agrees with
flexible mode on every input. -/
theorem validate_phone_unknown_mode_fallback (mode : Str)
    (h1 : mode ≠ str "strict") (h2 : mode ≠ str "flexible") :
    ∀ phone : Str, validate_phone phone mode = validate_phone phone (str "flexible") := by
  intro phone
  simp [validate_phone, h1, h2, flexible_ne_strict]

/-- Claim C10 witness at mode `"bogus"`. -/
theorem validate_phone_unknown_mode_fallback_witness :
    (str "bogus" ≠ str "strict" ∧ str "bogus" ≠ str "flexible") ∧
    validate_phone (str "03001234567") (str "bogus") =
      validate_phone (str "03001234567") (str "flexible") :=
  ⟨⟨by decide, by decide⟩,
    validate_phone_unknown_mode_fallback (str "bogus") (by decide) (by decide)
      (str "03001234567")⟩

/-- Claim C2: for a well-formed window (`start ≤ end`) the poll state is a
pure three-outcome function of `(now, start, end)`: `NOT_STARTED` exactly
when `now < start`, `OPEN` exactly when `start ≤ now ≤ end` (both endpoints
inclusive), `CLOSED` exactly when `now > end`; in particular the four
boundary instants behave as claimed. -/
theorem get_poll_state_three_states (now start endT : Int) (h : start ≤ endT) :
    ((get_poll_state now start endT = .NOT_STARTED ↔ now < start) ∧
      (get_poll_state now start endT = .OPEN ↔ start ≤ now ∧ now ≤ endT) ∧
      (get_poll_state now start endT = .CLOSED ↔ endT < now)) ∧
    get_poll_state (start - 1) start endT = .NOT_STARTED ∧
    get_poll_state start start endT = .OPEN ∧
    get_poll_state endT start endT = .OPEN ∧
    get_poll_state (endT + 1) start endT = .CLOSED := by
  refine ⟨⟨?_, ?_, ?_⟩, ?_, ?_, ?_, ?_⟩ <;> simp only [get_poll_state] <;> split_ifs <;>
    first
      | rfl
      | (exfalso; omega)
      | (constructor <;> intro h' <;>
          first
            | rfl
            | omega
            | (exfalso; omega)
            | (cases h'))

/-- Claim C2 witness for the window `[0, 10]`. -/
theorem get_poll_state_three_states_witness :
    ((0 : Int) ≤ 10) ∧
    ((get_poll_state 4 0 10 = .NOT_STARTED ↔ (4 : Int) < 0) ∧
      (get_poll_state 4 0 10 = .OPEN ↔ (0 : Int) ≤ 4 ∧ (4 : Int) ≤ 10) ∧
      (get_poll_state 4 0 10 = .CLOSED ↔ (10 : Int) < 4)) ∧
    get_poll_state (0 - 1) 0 10 = .NOT_STARTED ∧
    get_poll_state 0 0 10 = .OPEN ∧
    get_poll_state 10 0 10 = .OPEN ∧
    get_poll_state (10 + 1) 0 10 = .CLOSED :=
  ⟨by decide, get_poll_state_three_states 4 0 10 (by decide)⟩

/-- Claim C5 counterexample: on the canonical phone `923001234567` the code
strips the leading `92` (its length 12 exceeds 10) although the RESULTING
length would be 10, not more than 10, so the claim's rule leaves the string
unchanged and disagrees with the code. -/
theorem normalize_resulting_length_counterexample :
    clean_phone (str "923001234567") = str "923001234567" ∧
    normalize_for_comparison (str "923001234567") = str "3001234567" ∧
    normalizeSpecClaim (str "923001234567") = str "923001234567" ∧
    normalize_for_comparison (str "923001234567") ≠ normalizeSpecClaim (str "923001234567") := by
  refine ⟨by decide, by decide, by decide, by decide⟩

/-- Claim C5 as amended: on a canonical phone, `normalize_for_comparison`
strips a leading `+92`, or a leading `92` when the PHONE's length exceeds
10, or a single leading `0`, and is otherwise the identity; the three
quoted spellings of the sample number all normalize alike. -/
theorem normalize_for_comparison_amended (p : Str) (hp : clean_phone p = p) :
    normalize_for_comparison p = normalizeAmended p ∧
    normalize_for_comparison (str "+923001234567") = normalize_for_comparison (str "03001234567") ∧
    normalize_for_comparison (str "03001234567") = normalize_for_comparison (str "3001234567") := by
  refine ⟨?_, by decide, by decide⟩
  simp only [normalize_for_comparison, normalizeAmended, hp]

/-! ### The `$`-anchor trim decomposition (claim C4) -/

theorem dollar_trim : TrimSplit dollar atEnd := by
  intro cs
  match cs with
  | [] => rfl
  | [c] => simp [dollar, atEnd, lastNL, dropLast1]
  | c :: d :: rest => simp [dollar, atEnd, lastNL, dropLast1]

theorem charThen_trim (c : Char) {k1 k2 : Str → Bool} (hk : TrimSplit k1 k2) :
    TrimSplit (charThen c k1) (charThen c k2) := by
  intro cs
  match cs with
  | [] => simp [charThen, lastNL]
  | [x] =>
    have h0 := hk []
    simp [lastNL, dropLast1] at h0
    simp [charThen, lastNL, dropLast1, h0]
  | x :: d :: rest =>
    have ih := hk (d :: rest)
    simp only [charThen, lastNL, dropLast1, ih]
    cases hx : x == c <;> cases hl : lastNL (d :: rest) <;> simp [hx, hl]

theorem digitsThen_trim {k1 k2 : Str → Bool} (hk : TrimSplit k1 k2) :
    ∀ n, TrimSplit (digitsThen k1 n) (digitsThen k2 n)
  | 0 => fun cs => by simpa [digitsThen] using hk cs
  | n + 1 => by
    intro cs
    have IH := digitsThen_trim hk n
    match cs with
    | [] => simp [digitsThen, lastNL]
    | [x] =>
      have h0 := IH []
      simp [lastNL, dropLast1] at h0
      simp [digitsThen, lastNL, dropLast1, h0]
    | x :: d :: rest =>
      have ih := IH (d :: rest)
      simp only [digitsThen, lastNL, dropLast1, ih]
      cases hx : isAsciiDigit x <;> cases hl : lastNL (d :: rest) <;> simp [hx, hl]

theorem digitsUpTo_nil (k : Str → Bool) (n : Nat) : digitsUpTo k n [] = k [] := by
  cases n <;> simp [digitsUpTo]

theorem digitsUpTo_trim {k1 k2 : Str → Bool} (hk : TrimSplit k1 k2) :
    ∀ n, TrimSplit (digitsUpTo k1 n) (digitsUpTo k2 n)
  | 0 => fun cs => by simpa [digitsUpTo] using hk cs
  | n + 1 => by
    intro cs
    have IH := digitsUpTo_trim hk n
    match cs with
    | [] =>
      have h0 := hk []
      simp [lastNL, dropLast1] at h0
      simp [digitsUpTo, lastNL, dropLast1, h0]
    | [x] =>
      have h0 := hk []
      simp [lastNL, dropLast1] at h0
      have h1 := hk [x]
      simp [lastNL, dropLast1] at h1
      simp only [digitsUpTo, lastNL, dropLast1, h1, digitsUpTo_nil, h0]
      cases hx : isAsciiDigit x <;> cases hn : x == '\n' <;>
        simp [hx, hn, Bool.or_comm, Bool.or_left_comm, Bool.or_assoc]
    | x :: d :: rest =>
      have hcs := hk (x :: d :: rest)
      simp only [lastNL, dropLast1] at hcs
      have ih := IH (d :: rest)
      simp only [digitsUpTo, lastNL, dropLast1, hcs, ih]
      cases hx : isAsciiDigit x <;> cases hl : lastNL (d :: rest) <;>
        simp [hx, hl, Bool.or_comm, Bool.or_left_comm, Bool.or_assoc]

theorem strict_pattern_trim : TrimSplit strict_pattern strictShape := by
  have h3 : TrimSplit (strictTail dollar) (strictTail atEnd) :=
    charThen_trim '3' (digitsThen_trim dollar_trim 9)
  have hp1 := charThen_trim '+' (charThen_trim '9' (charThen_trim '2' h3))
  have hp2 := charThen_trim '9' (charThen_trim '2' h3)
  have hp3 := charThen_trim '0' h3
  intro cs
  have e1 := hp1 cs
  have e2 := hp2 cs
  have e3 := hp3 cs
  have e4 := h3 cs
  simp only [strict_pattern, strictShape, strictAlt]
  rw [e1, e2, e3, e4]
  cases lastNL cs <;> simp [Bool.or_comm, Bool.or_left_comm, Bool.or_assoc]

theorem flexible_pattern_trim : TrimSplit flexible_pattern flexShape := by
  have hk : TrimSplit (digitsThen (digitsUpTo dollar 8) 7) (digitsThen (digitsUpTo atEnd 8) 7) :=
    digitsThen_trim (digitsUpTo_trim dollar_trim 8) 7
  have hc := charThen_trim '+' hk
  intro cs
  have e1 := hc cs
  have e2 := hk cs
  simp only [flexible_pattern, flexShape, optCharThen]
  rw [e1, e2]
  cases lastNL cs <;> simp [Bool.or_comm, Bool.or_left_comm, Bool.or_assoc]

/-- Claim C4 counterexample: Python's `$` anchor also matches just before a
single trailing newline, so `validate_phone` accepts `"03001234567\n"` in
strict mode (and `"1234567\n"` in flexible mode) although neither string
has the claimed shape. -/
theorem validate_phone_trailing_newline_counterexample :
    validate_phone (str "03001234567" ++ ['\n']) (str "strict") = true ∧
    strictShape (str "03001234567" ++ ['\n']) = false ∧
    validate_phone (str "1234567" ++ ['\n']) (str "flexible") = true ∧
    flexShape (str "1234567" ++ ['\n']) = false := by
  refine ⟨by decide, by decide, by decide, by decide⟩

/-- Claim C4 as amended: strict mode accepts exactly the strings of the
claimed shape (optional `+92`/`92`/`0`, then `3` and nine more digits),
each optionally followed by one trailing newline; flexible mode accepts
exactly an optional `+` followed by 7 to 15 digits, again optionally
followed by one trailing newline; the claim's concrete examples hold. -/
theorem validate_phone_shape_characterization :
    (∀ cs : Str,
      validate_phone cs (str "strict") =
        (strictShape cs || (lastNL cs && strictShape (dropLast1 cs))) ∧
      validate_phone cs (str "flexible") =
        (flexShape cs || (lastNL cs && flexShape (dropLast1 cs)))) ∧
    validate_phone (str "03001234567") (str "strict") = true ∧
    validate_phone (str "+923001234567") (str "strict") = true ∧
    validate_phone (str "923001234567") (str "strict") = true ∧
    validate_phone (str "123") (str "strict") = false ∧
    strictShape (str "03001234567") = true ∧
    flexShape (str "+12345678901") = true := by
  refine ⟨fun cs => ⟨?_, ?_⟩, by decide, by decide, by decide, by decide, by decide, by decide⟩
  · have h := strict_pattern_trim cs
    simpa [validate_phone] using h
  · have h := flexible_pattern_trim cs
    simpa [validate_phone, flexible_ne_strict] using h

/-- Claim C5 witness at the canonical phone `03001234567`. -/
theorem normalize_for_comparison_amended_witness :
    clean_phone (str "03001234567") = str "03001234567" ∧
    (normalize_for_comparison (str "03001234567") = normalizeAmended (str "03001234567") ∧
      normalize_for_comparison (str "+923001234567") = normalize_for_comparison (str "03001234567") ∧
      normalize_for_comparison (str "03001234567") = normalize_for_comparison (str "3001234567")) :=
  ⟨by decide, normalize_for_comparison_amended (str "03001234567") (by decide)⟩

/-! ### Submission exclusivity (claims C1 and C3) -/

/-- A count below one per phone follows from distinctness of the stored
phone keys. -/
theorem countPhone_le_one_of_nodup (store : PollResults)
    (h : (store.map (fun r => r.1)).Nodup) (p : Str) : countPhone store p ≤ 1 := by
  induction store with
  | nil => simp [countPhone]
  | cons r rest ih =>
    simp only [List.map_cons, List.nodup_cons] at h
    obtain ⟨hnotin, hrest⟩ := h
    by_cases hp : (r.1 == p) = true
    · have hpe : r.1 = p := by simpa using hp
      have hzero : rest.filter (fun x => x.1 == p) = [] := by
        rw [List.filter_eq_nil_iff]
        intro x hx hxx
        have hxp : x.1 = p := by simpa using hxx
        exact hnotin (hpe ▸ hxp ▸ List.mem_map_of_mem (fun r' => r'.1) hx)
      simp [countPhone, List.filter_cons, hp, hzero]
    · have hp' : (r.1 == p) = false := by simpa using hp
      simpa [countPhone, List.filter_cons, hp'] using ih hrest

/-- Claim C1: with the poll OPEN, a valid phone, a known employee and no
stored row for the phone, the first submission succeeds and appends exactly
one row; afterwards every further submission for the same phone, with any
choice, fails with AlreadyVoted, the row count for the phone stays 1, and a
direct duplicate insert is rejected by the primary-key constraint instead
of overwriting. -/
theorem submit_response_first_succeeds_then_already_voted
    (emps : Employees) (store : PollResults) (rawPhone choice ts mode : Str)
    (now start endT : Int)
    (hopen : get_poll_state now start endT = .OPEN)
    (hvalid : validate_phone (clean_phone rawPhone) mode = true)
    (hknown : get_employee emps (clean_phone rawPhone) ≠ none)
    (hfresh : has_already_voted store (clean_phone rawPhone) = false) :
    submit_response emps store rawPhone choice ts mode now start endT =
        .ok (store ++ [(clean_phone rawPhone, choice, ts)]) ∧
    countPhone (store ++ [(clean_phone rawPhone, choice, ts)]) (clean_phone rawPhone) = 1 ∧
    (∀ choice' ts' : Str,
      submit_response emps (store ++ [(clean_phone rawPhone, choice, ts)]) rawPhone choice' ts'
          mode now start endT = .error .AlreadyVoted) ∧
    (∀ resp' ts' : Str,
      save_vote (store ++ [(clean_phone rawPhone, choice, ts)]) (clean_phone rawPhone) resp' ts' =
        .error .IntegrityError) := by
  have hfresh' : store.any (fun r => r.1 == clean_phone rawPhone) = false := hfresh
  have hvoted2 :
      (store ++ [(clean_phone rawPhone, choice, ts)]).any
        (fun r => r.1 == clean_phone rawPhone) = true := by
    simp [List.any_append]
  have hcount0 : store.filter (fun r => r.1 == clean_phone rawPhone) = [] := by
    rw [List.filter_eq_nil_iff]
    intro x hx hxx
    exact List.any_eq_false.mp hfresh' x hx hxx
  refine ⟨?_, ?_, ?_, ?_⟩
  · simp [submit_response, save_vote, has_already_voted, hvalid, hknown, hopen, hfresh']
  · simp [countPhone, List.filter_append, hcount0]
  · intro choice' ts'
    simp [submit_response, has_already_voted, hvalid, hknown, hopen, hvoted2]
  · intro resp' ts'
    simp [save_vote, hvoted2]

/-- Claim C1 witness: a raw phone with spaces and a dash, an open `[0,10]`
window, the sample roster and an empty response table. -/
theorem submit_response_first_succeeds_then_already_voted_witness :
    (get_poll_state 5 0 10 = .OPEN ∧
      validate_phone (clean_phone (str " 0300-123 4567")) (str "flexible") = true ∧
      get_employee sampleEmployees (clean_phone (str " 0300-123 4567")) ≠ none ∧
      has_already_voted [] (clean_phone (str " 0300-123 4567")) = false) ∧
    submit_response sampleEmployees [] (str " 0300-123 4567") (str "I am okay and safe.")
        (str "2026-01-05 09:00:00") (str "flexible") 5 0 10 =
      .ok (([] : PollResults) ++
        [(clean_phone (str " 0300-123 4567"), str "I am okay and safe.",
          str "2026-01-05 09:00:00")]) ∧
    submit_response sampleEmployees
        (([] : PollResults) ++
          [(clean_phone (str " 0300-123 4567"), str "I am okay and safe.",
            str "2026-01-05 09:00:00")])
        (str " 0300-123 4567") (str "I am stuck and help is needed.")
        (str "2026-01-05 09:05:00") (str "flexible") 5 0 10 = .error .AlreadyVoted ∧
    save_vote
        (([] : PollResults) ++
          [(clean_phone (str " 0300-123 4567"), str "I am okay and safe.",
            str "2026-01-05 09:00:00")])
        (clean_phone (str " 0300-123 4567")) (str "other") (str "t") =
      .error .IntegrityError :=
  ⟨⟨by decide, by decide, by decide, by decide⟩,
    (submit_response_first_succeeds_then_already_voted sampleEmployees []
      (str " 0300-123 4567") (str "I am okay and safe.") (str "2026-01-05 09:00:00")
      (str "flexible") 5 0 10 (by decide) (by decide) (by decide) (by decide)).1,
    (submit_response_first_succeeds_then_already_voted sampleEmployees []
      (str " 0300-123 4567") (str "I am okay and safe.") (str "2026-01-05 09:00:00")
      (str "flexible") 5 0 10 (by decide) (by decide) (by decide) (by decide)).2.2.1
      (str "I am stuck and help is needed.") (str "2026-01-05 09:05:00"),
    (submit_response_first_succeeds_then_already_voted sampleEmployees []
      (str " 0300-123 4567") (str "I am okay and safe.") (str "2026-01-05 09:00:00")
      (str "flexible") 5 0 10 (by decide) (by decide) (by decide) (by decide)).2.2.2
      (str "other") (str "t")⟩

/-- Claim C3 counterexample: the roster holds `03001234567` only; a first
submission with `03001234567` and a second with `+923001234567` — two phones
that normalize to the same core and resolve (via the normalized-lookup
fallback) to the same employee — are BOTH recorded, because the duplicate
check and the primary key compare exact phone strings only.  The Response
Store ends with two rows for one employee identity. -/
theorem one_response_per_identity_counterexample :
    submit_response sampleEmployees [] (str "03001234567") (str "I am okay and safe.")
        (str "t1") (str "flexible") 5 0 10 =
      .ok [(str "03001234567", str "I am okay and safe.", str "t1")] ∧
    submit_response sampleEmployees [(str "03001234567", str "I am okay and safe.", str "t1")]
        (str "+923001234567") (str "I am okay and safe.") (str "t2") (str "flexible") 5 0 10 =
      .ok [(str "03001234567", str "I am okay and safe.", str "t1"),
        (str "+923001234567", str "I am okay and safe.", str "t2")] ∧
    normalize_for_comparison (str "03001234567") =
      normalize_for_comparison (str "+923001234567") ∧
    get_employee sampleEmployees (str "+923001234567") =
      get_employee sampleEmployees (str "03001234567") ∧
    get_employee sampleEmployees (str "03001234567") ≠ none ∧
    ([(str "03001234567", str "I am okay and safe.", str "t1"),
      (str "+923001234567", str "I am okay and safe.", str "t2")] : PollResults).length = 2 := by
  refine ⟨by decide, by decide, by decide, by decide, by decide, by decide⟩

/-- Claim C3 as amended: the Response Store enforces at most one stored row
per EXACT canonical phone string — every successful submission preserves
distinctness of the stored phone keys, hence at most one row per phone —
but not per normalized employee identity. -/
theorem response_store_unique_per_phone
    (emps : Employees) (store st' : PollResults) (rawPhone choice ts mode : Str)
    (now start endT : Int)
    (hnodup : (store.map (fun r => r.1)).Nodup)
    (hok : submit_response emps store rawPhone choice ts mode now start endT = .ok st') :
    (st'.map (fun r => r.1)).Nodup ∧ ∀ p, countPhone st' p ≤ 1 := by
  simp only [submit_response] at hok
  by_cases h1 : validate_phone (clean_phone rawPhone) mode = false
  · rw [if_pos h1] at hok
    exact absurd hok (by simp)
  rw [if_neg h1] at hok
  by_cases h2 : get_employee emps (clean_phone rawPhone) = none
  · rw [if_pos h2] at hok
    exact absurd hok (by simp)
  rw [if_neg h2] at hok
  by_cases h3 : get_poll_state now start endT ≠ PollState.OPEN
  · rw [if_pos h3] at hok
    exact absurd hok (by simp)
  rw [if_neg h3] at hok
  by_cases h4 : has_already_voted store (clean_phone rawPhone) = true
  · rw [if_pos h4] at hok
    exact absurd hok (by simp)
  rw [if_neg h4] at hok
  · have hfresh : store.any (fun r => r.1 == clean_phone rawPhone) = false := by
      cases hb : store.any (fun r => r.1 == clean_phone rawPhone)
      · rfl
      · exact absurd hb h4
    have hsv : save_vote store (clean_phone rawPhone) choice ts =
        .ok (store ++ [(clean_phone rawPhone, choice, ts)]) := by
      simp [save_vote, hfresh]
    rw [hsv] at hok
    simp only [Except.ok.injEq] at hok
    subst hok
    have hnd : ((store ++ [(clean_phone rawPhone, choice, ts)]).map (fun r => r.1)).Nodup := by
      rw [List.map_append, List.nodup_append]
      refine ⟨hnodup, by simp, ?_⟩
      intro x hx hx2
      simp only [List.map_cons, List.map_nil, List.mem_singleton] at hx2
      subst hx2
      rcases List.mem_map.mp hx with ⟨r, hr, hr1⟩
      exact List.any_eq_false.mp hfresh r hr (by simp [hr1])
    exact ⟨hnd, fun p => countPhone_le_one_of_nodup _ hnd p⟩

/-- Claim C3 amended witness: one successful submission into an empty
store keeps the phone keys distinct and the per-phone count below one. -/
theorem response_store_unique_per_phone_witness :
    ((([] : PollResults)).map (fun r => r.1)).Nodup ∧
    submit_response sampleEmployees [] (str "03001234567") (str "I am okay and safe.")
        (str "t1") (str "flexible") 5 0 10 =
      .ok [(str "03001234567", str "I am okay and safe.", str "t1")] ∧
    (([(str "03001234567", str "I am okay and safe.", str "t1")] : PollResults).map
        (fun r => r.1)).Nodup ∧
    countPhone [(str "03001234567", str "I am okay and safe.", str "t1")]
        (str "03001234567") ≤ 1 :=
  ⟨by decide, by decide,
    (response_store_unique_per_phone sampleEmployees []
      [(str "03001234567", str "I am okay and safe.", str "t1")]
      (str "03001234567") (str "I am okay and safe.") (str "t1") (str "flexible") 5 0 10
      (by decide) (by decide)).1,
    (response_store_unique_per_phone sampleEmployees []
      [(str "03001234567", str "I am okay and safe.", str "t1")]
      (str "03001234567") (str "I am okay and safe.") (str "t1") (str "flexible") 5 0 10
      (by decide) (by decide)).2 (str "03001234567")⟩

/-! ### Settings persistence (claim C6) -/

theorem str_beq_refl (a : Str) : (a == a) = true := by simp

theorem str_beq_false {a b : Str} (h : a ≠ b) : (a == b) = false :=
  beq_eq_false_iff_ne.mpr h

/-- Lemma `List.find?_cons_of_pos` with the predicate and head explicit, so that
rewriting picks the intended instance. -/
theorem find?_cons_pos {α : Type} (p : α → Bool) (a : α) {l : List α} (h : p a = true) :
    (a :: l).find? p = some a :=
  List.find?_cons_of_pos l h

/-- Lemma `List.find?_cons_of_neg` with the predicate and head explicit. -/
theorem find?_cons_neg {α : Type} (p : α → Bool) (a : α) {l : List α} (h : p a = false) :
    (a :: l).find? p = l.find? p :=
  List.find?_cons_of_neg l (by simp [h])

theorem find?_map_set (l : SettingsStore) (k v k' : Str) :
    (l.map (fun e => if e.1 == k then (k, v) else e)).find? (fun e => e.1 == k') =
      if k' = k then (l.find? (fun e => e.1 == k)).map (fun _ => (k, v))
      else l.find? (fun e => e.1 == k') := by
  induction l with
  | nil => by_cases h : k' = k <;> simp [h]
  | cons e rest ih =>
    simp only [List.map_cons]
    by_cases he : ((e.1 == k) = true)
    · have hek : e.1 = k := by simpa using he
      rw [if_pos he]
      by_cases hkk : k' = k
      · subst hkk
        rw [if_pos rfl, find?_cons_pos (fun e => e.1 == k') (k', v) (str_beq_refl k'),
          find?_cons_pos (fun e => e.1 == k') e he]
        rfl
      · rw [if_neg hkk,
          find?_cons_neg (fun e => e.1 == k') (k, v) (str_beq_false (Ne.symm hkk)),
          ih, if_neg hkk,
          find?_cons_neg (fun e => e.1 == k') e
            (show (e.1 == k') = false by rw [hek]; exact str_beq_false (Ne.symm hkk))]
    · have he' : (e.1 == k) = false := by
        cases hb : (e.1 == k)
        · rfl
        · exact absurd hb he
      rw [if_neg he]
      by_cases hkk : k' = k
      · subst hkk
        rw [if_pos rfl, find?_cons_neg (fun e => e.1 == k') e he', ih, if_pos rfl,
          find?_cons_neg (fun e => e.1 == k') e he']
      · rw [if_neg hkk]
        by_cases hek' : ((e.1 == k') = true)
        · rw [find?_cons_pos (fun e => e.1 == k') e hek',
            find?_cons_pos (fun e => e.1 == k') e hek']
        · have hek'' : (e.1 == k') = false := by
            cases hb : (e.1 == k')
            · rfl
            · exact absurd hb hek'
          rw [find?_cons_neg (fun e => e.1 == k') e hek'',
            find?_cons_neg (fun e => e.1 == k') e hek'', ih, if_neg hkk]

theorem find?_append_single (l : SettingsStore) (k v k' : Str) :
    (l ++ [(k, v)]).find? (fun e => e.1 == k') =
      match l.find? (fun e => e.1 == k') with
      | some e => some e
      | none => if (k == k') = true then some (k, v) else none := by
  induction l with
  | nil =>
    simp only [List.nil_append, List.find?_nil]
    by_cases hkk : ((k == k') = true)
    · rw [find?_cons_pos (fun e => e.1 == k') (k, v) hkk, if_pos hkk]
    · have hkk' : (k == k') = false := by
        cases hb : (k == k')
        · rfl
        · exact absurd hb hkk
      rw [find?_cons_neg (fun e => e.1 == k') (k, v) hkk', if_neg hkk, List.find?_nil]
  | cons e rest ih =>
    simp only [List.cons_append]
    by_cases hek : ((e.1 == k') = true)
    · rw [find?_cons_pos (fun e => e.1 == k') e hek, find?_cons_pos (fun e => e.1 == k') e hek]
    · have hek' : (e.1 == k') = false := by
        cases hb : (e.1 == k')
        · rfl
        · exact absurd hb hek
      rw [find?_cons_neg (fun e => e.1 == k') e hek', find?_cons_neg (fun e => e.1 == k') e hek',
        ih]

/-- Writing with `INSERT OR REPLACE` followed by a lookup: the written key now maps to
the written value and every other key is unaffected. -/
theorem get_setting_set_setting (st : SettingsStore) (k v k' : Str) :
    get_setting (set_setting st k v) k' = if k' = k then some v else get_setting st k' := by
  unfold get_setting set_setting
  by_cases hany : st.any (fun e => e.1 == k) = true
  · rw [if_pos hany, find?_map_set]
    by_cases hkk : k' = k
    · subst hkk
      rw [if_pos rfl, if_pos rfl]
      rcases List.any_eq_true.mp hany with ⟨x, hx, hxk⟩
      cases hfind : st.find? (fun e => e.1 == k') with
      | none =>
        exact absurd hxk (List.find?_eq_none.mp hfind x hx)
      | some e => simp
    · rw [if_neg hkk, if_neg hkk]
  · have hany' : st.any (fun e => e.1 == k) = false := by
      cases hb : st.any (fun e => e.1 == k)
      · rfl
      · exact absurd hb hany
    rw [if_neg hany, find?_append_single]
    by_cases hkk : k' = k
    · subst hkk
      have hnone : st.find? (fun e => e.1 == k') = none := by
        rw [List.find?_eq_none]
        intro x hx
        simpa using List.any_eq_false.mp hany' x hx
      rw [if_pos rfl, hnone]
      simp
    · have hb : (k == k') = false := beq_eq_false_iff_ne.mpr (Ne.symm hkk)
      rw [if_neg hkk]
      cases hfind : st.find? (fun e => e.1 == k') <;> simp [hfind, hb]

/-- Claim C6: saving fails exactly when the composed end is not strictly
after the composed start; on failure the persisted configuration is left
unchanged and the draft kept; on success the six PollConfig fields are
persisted with the composed values and the draft is cleared. -/
theorem save_settings_validates_range (d : Draft) (st : SettingsStore) :
    (dtLe d.end_date (draft_end_time d) d.start_date (draft_start_time d) = true →
      save_settings_to_db d st = (false, st) ∧
      save_all_settings d st = (false, st, some d)) ∧
    (dtLe d.end_date (draft_end_time d) d.start_date (draft_start_time d) = false →
      save_all_settings d st = (true, (save_settings_to_db d st).2, none) ∧
      get_setting (save_settings_to_db d st).2 (str "poll_start") =
        some (fmtDT d.start_date (draft_start_time d)) ∧
      get_setting (save_settings_to_db d st).2 (str "poll_end") =
        some (fmtDT d.end_date (draft_end_time d)) ∧
      get_setting (save_settings_to_db d st).2 (str "validation_mode") = some d.validation ∧
      get_setting (save_settings_to_db d st).2 (str "timezone") = some d.timezone ∧
      get_setting (save_settings_to_db d st).2 (str "time_format") = some d.time_format ∧
      get_setting (save_settings_to_db d st).2 (str "col_phone") = some (pyStrip d.col_phone)) := by
  constructor
  · intro hle
    exact ⟨by simp [save_settings_to_db, hle], by simp [save_all_settings, save_settings_to_db, hle]⟩
  · intro hgt
    have hs2 : (save_settings_to_db d st).2 =
        set_setting (set_setting (set_setting (set_setting (set_setting (set_setting st
          (str "poll_start") (fmtDT d.start_date (draft_start_time d)))
          (str "poll_end") (fmtDT d.end_date (draft_end_time d)))
          (str "validation_mode") d.validation)
          (str "timezone") d.timezone)
          (str "time_format") d.time_format)
          (str "col_phone") (pyStrip d.col_phone) := by
      simp [save_settings_to_db, hgt]
    refine ⟨?_, ?_, ?_, ?_, ?_, ?_, ?_⟩
    · simp [save_all_settings, save_settings_to_db, hgt]
    · rw [hs2, get_setting_set_setting, if_neg (by decide), get_setting_set_setting,
        if_neg (by decide), get_setting_set_setting, if_neg (by decide),
        get_setting_set_setting, if_neg (by decide), get_setting_set_setting,
        if_neg (by decide), get_setting_set_setting, if_pos rfl]
    · rw [hs2, get_setting_set_setting, if_neg (by decide), get_setting_set_setting,
        if_neg (by decide), get_setting_set_setting, if_neg (by decide),
        get_setting_set_setting, if_neg (by decide), get_setting_set_setting, if_pos rfl]
    · rw [hs2, get_setting_set_setting, if_neg (by decide), get_setting_set_setting,
        if_neg (by decide), get_setting_set_setting, if_neg (by decide),
        get_setting_set_setting, if_pos rfl]
    · rw [hs2, get_setting_set_setting, if_neg (by decide), get_setting_set_setting,
        if_neg (by decide), get_setting_set_setting, if_pos rfl]
    · rw [hs2, get_setting_set_setting, if_neg (by decide), get_setting_set_setting, if_pos rfl]
    · rw [hs2, get_setting_set_setting, if_pos rfl]

/-- Claim C6 witness: a draft whose composed end equals its composed start
fails and leaves the (empty) settings table untouched with the draft kept;
the well-ordered sample draft saves and persists its composed start. -/
theorem save_settings_validates_range_witness :
    (dtLe sampleDraftEqualRange.end_date (draft_end_time sampleDraftEqualRange)
        sampleDraftEqualRange.start_date (draft_start_time sampleDraftEqualRange) = true) ∧
    (save_settings_to_db sampleDraftEqualRange [] = (false, []) ∧
      save_all_settings sampleDraftEqualRange [] = (false, [], some sampleDraftEqualRange)) ∧
    (dtLe sampleDraft.end_date (draft_end_time sampleDraft)
        sampleDraft.start_date (draft_start_time sampleDraft) = false) ∧
    get_setting (save_settings_to_db sampleDraft []).2 (str "poll_start") =
      some (fmtDT sampleDraft.start_date (draft_start_time sampleDraft)) :=
  ⟨by decide, (save_settings_validates_range sampleDraftEqualRange []).1 (by decide),
    by decide, ((save_settings_validates_range sampleDraft []).2 (by decide)).2.1⟩

/-! ### Unsaved-changes detection (claim C8) -/

/-- Claim C8: `check_settings_changed` returns true exactly when one of the
six compared fields differs from the persisted value (with the composed
start/end compared through the shared string representation), and the two
time-input representations of the same instants always yield the same
answer. -/
theorem check_settings_changed_spec :
    (∀ (d : Draft) (st : SettingsStore),
      check_settings_changed (some d) st = true ↔ settings_differ d st) ∧
    (∀ (d : Draft) (st : SettingsStore) (h1 m1 h2 m2 : Nat), h1 < 24 → h2 < 24 →
      check_settings_changed (some (draftWith24 d h1 m1 h2 m2)) st =
        check_settings_changed (some (draftWith12 d h1 m1 h2 m2)) st) := by
  constructor
  · intro d st
    simp only [check_settings_changed, settings_differ]
    by_cases hP : (d.timezone ≠ get_settingD st (str "timezone") (str "Asia/Karachi") ∨
        d.time_format ≠ get_settingD st (str "time_format") (str "12") ∨
        d.validation ≠ get_settingD st (str "validation_mode") (str "flexible") ∨
        pyStrip d.col_phone ≠ get_settingD st (str "col_phone") (str "Phone"))
    · rw [if_pos hP]
      simp only [true_iff]
      tauto
    · rw [if_neg hP]
      simp only [decide_eq_true_eq]
      tauto
  · intro d st h1 m1 h2 m2 hh1 hh2
    have e1 : draft_start_time (draftWith24 d h1 m1 h2 m2) = (h1, m1) := by
      simp [draft_start_time, draftWith24]
    have e2 : draft_end_time (draftWith24 d h1 m1 h2 m2) = (h2, m2) := by
      simp [draft_end_time, draftWith24]
    have e3 : draft_start_time (draftWith12 d h1 m1 h2 m2) = (h1, m1) := by
      simp only [draft_start_time, draftWith12]
      rw [if_neg hr12_ne_24]
      exact conv_24_12_24 h1 m1 hh1
    have e4 : draft_end_time (draftWith12 d h1 m1 h2 m2) = (h2, m2) := by
      simp only [draft_end_time, draftWith12]
      rw [if_neg hr12_ne_24]
      exact conv_24_12_24 h2 m2 hh2
    simp only [check_settings_changed]
    rw [e1, e2, e3, e4]
    simp only [draftWith24, draftWith12]

/-- Claim C8 witness: the sample draft's 24-hour entry of 09:30-17:00 and
its 12-hour re-entry of the same instants give the same answer against the
empty settings table. -/
theorem check_settings_changed_spec_witness :
    ((9 : Nat) < 24 ∧ (17 : Nat) < 24) ∧
    check_settings_changed (some (draftWith24 sampleDraft 9 30 17 0)) [] =
      check_settings_changed (some (draftWith12 sampleDraft 9 30 17 0)) [] :=
  ⟨⟨by decide, by decide⟩,
    check_settings_changed_spec.2 sampleDraft [] 9 30 17 0 (by decide) (by decide)⟩

/-! ### Roster replacement (claim C7) -/

theorem lookup_insert_or_ignore (acc : Employees) (q i p : Str) :
    lookup_employee (insert_or_ignore acc q i) p =
      match lookup_employee acc p with
      | some e => some e
      | none => if (q == p) = true then some (q, i) else none := by
  unfold insert_or_ignore lookup_employee
  by_cases hq : acc.any (fun e => e.1 == q) = true
  · rw [if_pos hq]
    cases hl : acc.find? (fun e => e.1 == p) with
    | some e => simp [hl]
    | none =>
      by_cases hqp : ((q == p) = true)
      · have hqp' : q = p := by simpa using hqp
        rcases List.any_eq_true.mp hq with ⟨x, hx, hxq⟩
        have hxp : (fun e => e.1 == p) x = true := by
          have hx1 : x.1 = q := by simpa using hxq
          simp [hx1, hqp']
        exact absurd hxp (List.find?_eq_none.mp hl x hx)
      · show (none : Option (Str × Str)) = if (q == p) = true then some (q, i) else none
        rw [if_neg hqp]
  · rw [if_neg hq]
    exact find?_append_single acc q i p

theorem lookup_fold_insert (rows : List UploadRow) (acc : Employees) (p : Str) :
    lookup_employee (rows.foldl (fun db r => insert_or_ignore db r.phone r.info) acc) p =
      match lookup_employee acc p with
      | some e => some e
      | none => (rows.find? (fun r => r.phone == p)).map (fun r => (r.phone, r.info)) := by
  induction rows generalizing acc with
  | nil => cases hl : lookup_employee acc p <;> simp [hl]
  | cons r rest ih =>
    simp only [List.foldl_cons]
    rw [ih (insert_or_ignore acc r.phone r.info), lookup_insert_or_ignore]
    cases hl : lookup_employee acc p with
    | some e => rfl
    | none =>
      by_cases hqp : ((r.phone == p) = true)
      · rw [if_pos hqp, find?_cons_pos (fun r => r.phone == p) r hqp]
        rfl
      · have hqp' : (r.phone == p) = false := by
          cases hb : (r.phone == p)
          · rfl
          · exact absurd hb hqp
        rw [if_neg hqp, find?_cons_neg (fun r => r.phone == p) r hqp']

/-- Claim C7: the upload cleans then validates every row, reports invalid
rows without storing them, resolves in-batch duplicate phones first-wins,
and the outcome ignores the prior roster entirely (it is deleted first);
an upload of 3 valid rows with distinct phones and 2 invalid rows, in any
interleaving `[v1, i1, v2, i2, v3]`, yields `accepted_count = 3`, exactly
those two rejected rows, and a store holding exactly the three cleaned
valid rows in order. -/
theorem replace_roster_spec
    (prior prior' : Employees) (rows : List UploadRow) (mode : Str) (p : Str)
    (v1 v2 v3 i1 i2 : UploadRow)
    (hv1 : validate_phone (clean_phone v1.phone) mode = true)
    (hv2 : validate_phone (clean_phone v2.phone) mode = true)
    (hv3 : validate_phone (clean_phone v3.phone) mode = true)
    (hi1 : validate_phone (clean_phone i1.phone) mode = false)
    (hi2 : validate_phone (clean_phone i2.phone) mode = false)
    (h12 : clean_phone v1.phone ≠ clean_phone v2.phone)
    (h13 : clean_phone v1.phone ≠ clean_phone v3.phone)
    (h23 : clean_phone v2.phone ≠ clean_phone v3.phone) :
    replace_roster prior rows mode = replace_roster prior' rows mode ∧
    lookup_employee (replace_roster prior rows mode).2.2 p =
      (((rows.map (fun r => UploadRow.mk (clean_phone r.phone) r.info)).filter
          (fun r => validate_phone r.phone mode)).find? (fun r => r.phone == p)).map
        (fun r => (r.phone, r.info)) ∧
    replace_roster prior [v1, i1, v2, i2, v3] mode =
      (3,
        [UploadRow.mk (clean_phone i1.phone) i1.info,
          UploadRow.mk (clean_phone i2.phone) i2.info],
        [(clean_phone v1.phone, v1.info), (clean_phone v2.phone, v2.info),
          (clean_phone v3.phone, v3.info)]) := by
  refine ⟨rfl, ?_, ?_⟩
  · simp only [replace_roster]
    rw [lookup_fold_insert]
    rfl
  · simp [replace_roster, List.filter_cons, hv1, hv2, hv3, hi1, hi2,
      insert_or_ignore, h12, h13, h23]

/-- Claim C7 witness: a concrete upload of three valid and two invalid
rows over a non-empty prior roster, in flexible mode. -/
theorem replace_roster_spec_witness :
    (validate_phone (clean_phone (str "03001234567")) (str "flexible") = true ∧
      validate_phone (clean_phone (str "03007654321")) (str "flexible") = true ∧
      validate_phone (clean_phone (str "+923335557777")) (str "flexible") = true ∧
      validate_phone (clean_phone (str "abc")) (str "flexible") = false ∧
      validate_phone (clean_phone (str "12")) (str "flexible") = false ∧
      clean_phone (str "03001234567") ≠ clean_phone (str "03007654321") ∧
      clean_phone (str "03001234567") ≠ clean_phone (str "+923335557777") ∧
      clean_phone (str "03007654321") ≠ clean_phone (str "+923335557777")) ∧
    replace_roster [(str "old", str "x")]
        [⟨str "03001234567", str "a"⟩, ⟨str "abc", str "d"⟩, ⟨str "03007654321", str "b"⟩,
          ⟨str "12", str "e"⟩, ⟨str "+923335557777", str "c"⟩] (str "flexible") =
      (3,
        [UploadRow.mk (clean_phone (str "abc")) (str "d"),
          UploadRow.mk (clean_phone (str "12")) (str "e")],
        [(clean_phone (str "03001234567"), str "a"),
          (clean_phone (str "03007654321"), str "b"),
          (clean_phone (str "+923335557777"), str "c")]) :=
  ⟨⟨by decide, by decide, by decide, by decide, by decide, by decide, by decide, by decide⟩,
    (replace_roster_spec [(str "old", str "x")] [] [] (str "flexible") (str "p")
      ⟨str "03001234567", str "a"⟩ ⟨str "03007654321", str "b"⟩ ⟨str "+923335557777", str "c"⟩
      ⟨str "abc", str "d"⟩ ⟨str "12", str "e"⟩
      (by decide) (by decide) (by decide) (by decide) (by decide)
      (by decide) (by decide) (by decide)).2.2⟩

end Survey
